import Mathlib

/-!
# Bit-level layout of `ecma-globals.h` (JerryScript, as vendored in mbed-js)

The header defines the packed encodings of ECMA values, object headers,
property type bytes and string descriptors through C macros.  Each macro is
embedded below as a Lean definition with the name it has in the header.
Machine words are natural numbers (unsigned) or integers (signed); the width
of a C type is made explicit by a reduction modulo `2 ^ w` wherever the C
operation can wrap.
-/

namespace EcmaGlobals

/-! ## C integer arithmetic used by the macros -/

/-- Number of values of `uint16_t`. -/
def UINT16_SIZE : Nat := 2 ^ 16

/-- Number of values of `uint32_t`. -/
def UINT32_SIZE : Nat := 2 ^ 32

/-- Smallest value of `int32_t`. -/
def INT32_MIN : Int := -(2 ^ 31)

/-- Largest value of `int32_t`. -/
def INT32_MAX : Int := 2 ^ 31 - 1

/-- The mathematical integer `i` is representable in `int32_t`. -/
def fits_int32 (i : Int) : Bool := decide (INT32_MIN ≤ i ∧ i ≤ INT32_MAX)

/-- Conversion of a signed integer to `uint32_t` (C: reduction modulo `2 ^ 32`). -/
def to_uint32 (i : Int) : Nat := (i % (UINT32_SIZE : Int)).toNat

/-- Reinterpretation of a `uint32_t` word as `int32_t` (two's complement). -/
def to_int32 (w : Nat) : Int :=
  if w % UINT32_SIZE < 2 ^ 31 then ((w % UINT32_SIZE : Nat) : Int)
  else ((w % UINT32_SIZE : Nat) : Int) - (UINT32_SIZE : Int)

/-- Mathematical value of the C expression `i << k` on a signed operand. -/
def int_shl (i : Int) (k : Nat) : Int := i * 2 ^ k

/-- Arithmetic right shift of a signed integer (`i >> k`, sign extending). -/
def int_sar (i : Int) (k : Nat) : Int := i >>> k

/-- Bitwise complement in `uint32_t` (`~x` on an `unsigned int` operand). -/
def uint32_not (x : Nat) : Nat := UINT32_SIZE - 1 - x % UINT32_SIZE

/-- Addition in `uint16_t`: the sum is stored back into a 16-bit field. -/
def uint16_add (a b : Nat) : Nat := (a + b) % UINT16_SIZE

/-- Subtraction in `uint16_t`: the difference is stored back into a 16-bit field. -/
def uint16_sub (a b : Nat) : Nat := (a + UINT16_SIZE - b % UINT16_SIZE) % UINT16_SIZE

/-! ## Value encoding (header lines 53-179) -/

/-- Build configuration `CONFIG_ECMA_NUMBER_TYPE`. -/
inductive CONFIG_ECMA_NUMBER_TYPE where
  | CONFIG_ECMA_NUMBER_FLOAT32
  | CONFIG_ECMA_NUMBER_FLOAT64
  deriving DecidableEq, Repr

open CONFIG_ECMA_NUMBER_TYPE

/-- Enumerator `ECMA_TYPE_DIRECT` of `ecma_type_t`. -/
def ECMA_TYPE_DIRECT : Nat := 0

/-- Enumerator `ECMA_TYPE_FLOAT` of `ecma_type_t`. -/
def ECMA_TYPE_FLOAT : Nat := 1

/-- Enumerator `ECMA_TYPE_STRING` of `ecma_type_t`. -/
def ECMA_TYPE_STRING : Nat := 2

/-- Enumerator `ECMA_TYPE_OBJECT` of `ecma_type_t`. -/
def ECMA_TYPE_OBJECT : Nat := 3

/-- Mask for ecma types in `ecma_type_t`: `0x3u`. -/
def ECMA_VALUE_TYPE_MASK : Nat := 0x3

/-- Error flag in `ecma_type_t`: `0x4u`. -/
def ECMA_VALUE_ERROR_FLAG : Nat := 0x4

/-- Shift for the value part in `ecma_type_t`. -/
def ECMA_VALUE_SHIFT : Nat := 3

/-- Mask for directly encoded values: `((1u << ECMA_VALUE_SHIFT) | ECMA_VALUE_TYPE_MASK)`. -/
def ECMA_DIRECT_TYPE_MASK : Nat := (1 <<< ECMA_VALUE_SHIFT) ||| ECMA_VALUE_TYPE_MASK

/-- Ecma integer value type: `((0u << ECMA_VALUE_SHIFT) | ECMA_TYPE_DIRECT)`. -/
def ECMA_DIRECT_TYPE_INTEGER_VALUE : Nat := (0 <<< ECMA_VALUE_SHIFT) ||| ECMA_TYPE_DIRECT

/-- Ecma simple value type: `((1u << ECMA_VALUE_SHIFT) | ECMA_TYPE_DIRECT)`. -/
def ECMA_DIRECT_TYPE_SIMPLE_VALUE : Nat := (1 <<< ECMA_VALUE_SHIFT) ||| ECMA_TYPE_DIRECT

/-- Shift for directly encoded values in `ecma_value_t`. -/
def ECMA_DIRECT_SHIFT : Nat := 4

/-- Maximum integer number for an ecma value. -/
def ECMA_INTEGER_NUMBER_MAX : CONFIG_ECMA_NUMBER_TYPE → Int
  | CONFIG_ECMA_NUMBER_FLOAT32 => 0x7fffff
  | CONFIG_ECMA_NUMBER_FLOAT64 => 0x7ffffff

/-- Minimum integer number for an ecma value. -/
def ECMA_INTEGER_NUMBER_MIN : CONFIG_ECMA_NUMBER_TYPE → Int
  | CONFIG_ECMA_NUMBER_FLOAT32 => -0x7fffff
  | CONFIG_ECMA_NUMBER_FLOAT64 => -0x8000000

/-- Checks whether the integer number is in the integer number range:
`(ECMA_INTEGER_NUMBER_MIN <= (num) && (num) <= ECMA_INTEGER_NUMBER_MAX)`. -/
def ECMA_IS_INTEGER_NUMBER (cfg : CONFIG_ECMA_NUMBER_TYPE) (num : Int) : Bool :=
  decide (ECMA_INTEGER_NUMBER_MIN cfg ≤ num) && decide (num ≤ ECMA_INTEGER_NUMBER_MAX cfg)

/-- Maximum integer number, which if squared, still fits in `ecma_integer_value_t`. -/
def ECMA_INTEGER_MULTIPLY_MAX : CONFIG_ECMA_NUMBER_TYPE → Int
  | CONFIG_ECMA_NUMBER_FLOAT32 => 0xb50
  | CONFIG_ECMA_NUMBER_FLOAT64 => 0x2d41

/-- Checks whether the error flag is set: `((value & ECMA_VALUE_ERROR_FLAG) != 0)`. -/
def ECMA_IS_VALUE_ERROR (value : Nat) : Bool := (value &&& ECMA_VALUE_ERROR_FLAG) != 0

/-! ## Property storage (header lines 260-432) -/

/-- Enumerator of `ecma_property_types_t`: deleted property. -/
def ECMA_PROPERTY_TYPE_DELETED : Nat := 0

/-- Enumerator of `ecma_property_types_t`: internal property. -/
def ECMA_PROPERTY_TYPE_INTERNAL : Nat := 1

/-- Enumerator of `ecma_property_types_t`: property is named data. -/
def ECMA_PROPERTY_TYPE_NAMEDDATA : Nat := 2

/-- Enumerator of `ecma_property_types_t`: property is named accessor. -/
def ECMA_PROPERTY_TYPE_NAMEDACCESSOR : Nat := 3

/-- Highest value for property pair types. -/
def ECMA_PROPERTY_TYPE_PROPERTY_PAIR__MAX : Nat := ECMA_PROPERTY_TYPE_NAMEDACCESSOR

/-- Enumerator of `ecma_property_types_t`: hash map for fast property access. -/
def ECMA_PROPERTY_TYPE_HASHMAP : Nat := ECMA_PROPERTY_TYPE_PROPERTY_PAIR__MAX + 1

/-- Highest value for property types. -/
def ECMA_PROPERTY_TYPE__MAX : Nat := ECMA_PROPERTY_TYPE_HASHMAP

/-- The enumerators of `ecma_property_types_t` that name a property category. -/
def ecma_property_types_t : List Nat :=
  [ECMA_PROPERTY_TYPE_DELETED, ECMA_PROPERTY_TYPE_INTERNAL, ECMA_PROPERTY_TYPE_NAMEDDATA,
   ECMA_PROPERTY_TYPE_NAMEDACCESSOR, ECMA_PROPERTY_TYPE_HASHMAP]

/-- Property type mask. -/
def ECMA_PROPERTY_TYPE_MASK : Nat := 0x7

/-- Property flags base shift. -/
def ECMA_PROPERTY_FLAG_SHIFT : Nat := 3

/-- Property is configurable: `1u << (ECMA_PROPERTY_FLAG_SHIFT + 0)`. -/
def ECMA_PROPERTY_FLAG_CONFIGURABLE : Nat := 1 <<< (ECMA_PROPERTY_FLAG_SHIFT + 0)

/-- Property is enumerable: `1u << (ECMA_PROPERTY_FLAG_SHIFT + 1)`. -/
def ECMA_PROPERTY_FLAG_ENUMERABLE : Nat := 1 <<< (ECMA_PROPERTY_FLAG_SHIFT + 1)

/-- Property is writable: `1u << (ECMA_PROPERTY_FLAG_SHIFT + 2)`. -/
def ECMA_PROPERTY_FLAG_WRITABLE : Nat := 1 <<< (ECMA_PROPERTY_FLAG_SHIFT + 2)

/-- Property is lcached: `1u << (ECMA_PROPERTY_FLAG_SHIFT + 3)`. -/
def ECMA_PROPERTY_FLAG_LCACHED : Nat := 1 <<< (ECMA_PROPERTY_FLAG_SHIFT + 3)

/-- The enumerators of `ecma_property_flags_t`. -/
def ecma_property_flags_t : List Nat :=
  [ECMA_PROPERTY_FLAG_CONFIGURABLE, ECMA_PROPERTY_FLAG_ENUMERABLE,
   ECMA_PROPERTY_FLAG_WRITABLE, ECMA_PROPERTY_FLAG_LCACHED]

/-- Abstract property representation: the `uint8_t type_and_flags` byte. -/
structure ecma_property_t where
  type_and_flags : Nat
  deriving DecidableEq, Repr

/-- Number of items in a property pair. -/
def ECMA_PROPERTY_PAIR_ITEM_COUNT : Nat := 2

/-- Property header for all items in a property list: the two type slots and the
compressed pointer to the next item. -/
structure ecma_property_header_t where
  types : Fin ECMA_PROPERTY_PAIR_ITEM_COUNT → ecma_property_t
  next_property_cp : Nat

/-- Get property type: `((property_p)->type_and_flags & ECMA_PROPERTY_TYPE_MASK)`. -/
def ECMA_PROPERTY_GET_TYPE (property_p : ecma_property_t) : Nat :=
  property_p.type_and_flags &&& ECMA_PROPERTY_TYPE_MASK

/-- Returns true if the property pointer is a property pair:
`ECMA_PROPERTY_GET_TYPE ((property_header_p)->types + 0) <= ECMA_PROPERTY_TYPE_PROPERTY_PAIR__MAX`. -/
def ECMA_PROPERTY_IS_PROPERTY_PAIR (property_header_p : ecma_property_header_t) : Bool :=
  decide (ECMA_PROPERTY_GET_TYPE (property_header_p.types ⟨0, by decide⟩)
    ≤ ECMA_PROPERTY_TYPE_PROPERTY_PAIR__MAX)

/-- Bitwise complement in `uintptr_t` for a pointer width of `bits` bits. -/
def uintptr_not (bits x : Nat) : Nat := 2 ^ bits - 1 - x % 2 ^ bits

/-- Computing the data offset of a property:
`((((uintptr_t) (property_p)) & (sizeof (ecma_property_value_t) - 1)) + 1)`.
`sizeof_value` stands for `sizeof (ecma_property_value_t)`. -/
def ECMA_PROPERTY_VALUE_OFFSET (sizeof_value property_p : Nat) : Nat :=
  (property_p &&& (sizeof_value - 1)) + 1

/-- Computing the base address of the property data list:
`(((uintptr_t) (property_p)) & ~(sizeof (ecma_property_value_t) - 1))`, for a pointer
width of `bits` bits. -/
def ECMA_PROPERTY_VALUE_BASE_PTR (bits sizeof_value property_p : Nat) : Nat :=
  property_p &&& uintptr_not bits (sizeof_value - 1)

/-- Pointer to property data:
`ECMA_PROPERTY_VALUE_BASE_PTR (property_p) + ECMA_PROPERTY_VALUE_OFFSET (property_p)`, an
addition on `ecma_property_value_t *`, which advances the address by `sizeof_value` bytes
per unit. -/
def ECMA_PROPERTY_VALUE_PTR (bits sizeof_value property_p : Nat) : Nat :=
  ECMA_PROPERTY_VALUE_BASE_PTR bits sizeof_value property_p
    + sizeof_value * ECMA_PROPERTY_VALUE_OFFSET sizeof_value property_p

/-- Address of `header.types[i]` in an `ecma_property_pair_t` placed at address `pair_p`:
the header is the first member and `types` is its first member, an array of one-byte
`ecma_property_t`. -/
def property_pair_type_addr (pair_p i : Nat) : Nat := pair_p + i

/-- Address of `values[i]` in an `ecma_property_pair_t` placed at address `pair_p`, when the
header occupies `sizeof_header` bytes and each value slot `sizeof_value` bytes. -/
def property_pair_value_addr (sizeof_header sizeof_value pair_p i : Nat) : Nat :=
  pair_p + sizeof_header + sizeof_value * i

/-! ## Object header (header lines 434-517) -/

/-- Enumerator of `ecma_object_type_t`: all objects that are not String, Function,
Arguments or Array specification-defined objects. -/
def ECMA_OBJECT_TYPE_GENERAL : Nat := 0

/-- Enumerator of `ecma_object_type_t`: Function objects created through the 13.2 routine. -/
def ECMA_OBJECT_TYPE_FUNCTION : Nat := 1

/-- Enumerator of `ecma_object_type_t`: one of the built-in functions. -/
def ECMA_OBJECT_TYPE_BUILT_IN_FUNCTION : Nat := 2

/-- Enumerator of `ecma_object_type_t`: Array object. -/
def ECMA_OBJECT_TYPE_ARRAY : Nat := 3

/-- Enumerator of `ecma_object_type_t`: String objects. -/
def ECMA_OBJECT_TYPE_STRING : Nat := 4

/-- Enumerator of `ecma_object_type_t`: external (host) function object. -/
def ECMA_OBJECT_TYPE_EXTERNAL_FUNCTION : Nat := 5

/-- Enumerator of `ecma_object_type_t`: Function objects created through the 15.3.4.5
routine. -/
def ECMA_OBJECT_TYPE_BOUND_FUNCTION : Nat := 6

/-- Enumerator of `ecma_object_type_t`: Arguments object. -/
def ECMA_OBJECT_TYPE_ARGUMENTS : Nat := 7

/-- Maximum value of `ecma_object_type_t`. -/
def ECMA_OBJECT_TYPE__MAX : Nat := ECMA_OBJECT_TYPE_ARGUMENTS

/-- The enumerators of `ecma_object_type_t` that name an object type. -/
def ecma_object_type_t : List Nat :=
  [ECMA_OBJECT_TYPE_GENERAL, ECMA_OBJECT_TYPE_FUNCTION, ECMA_OBJECT_TYPE_BUILT_IN_FUNCTION,
   ECMA_OBJECT_TYPE_ARRAY, ECMA_OBJECT_TYPE_STRING, ECMA_OBJECT_TYPE_EXTERNAL_FUNCTION,
   ECMA_OBJECT_TYPE_BOUND_FUNCTION, ECMA_OBJECT_TYPE_ARGUMENTS]

/-- Enumerator of `ecma_lexical_environment_type_t`: declarative lexical environment. -/
def ECMA_LEXICAL_ENVIRONMENT_DECLARATIVE : Nat := 5

/-- Enumerator of `ecma_lexical_environment_type_t`: object-bound lexical environment. -/
def ECMA_LEXICAL_ENVIRONMENT_OBJECT_BOUND : Nat := 6

/-- Enumerator of `ecma_lexical_environment_type_t`: object-bound lexical environment with
provideThis flag. -/
def ECMA_LEXICAL_ENVIRONMENT_THIS_OBJECT_BOUND : Nat := 7

/-- First lexical environment type. -/
def ECMA_LEXICAL_ENVIRONMENT_TYPE_START : Nat := ECMA_LEXICAL_ENVIRONMENT_DECLARATIVE

/-- Maximum value of `ecma_lexical_environment_type_t`. -/
def ECMA_LEXICAL_ENVIRONMENT_TYPE__MAX : Nat := ECMA_LEXICAL_ENVIRONMENT_THIS_OBJECT_BOUND

/-- The enumerators of `ecma_lexical_environment_type_t` that name an environment type. -/
def ecma_lexical_environment_type_t : List Nat :=
  [ECMA_LEXICAL_ENVIRONMENT_DECLARATIVE, ECMA_LEXICAL_ENVIRONMENT_OBJECT_BOUND,
   ECMA_LEXICAL_ENVIRONMENT_THIS_OBJECT_BOUND]

/-- Ecma object type mask for getting the object type. -/
def ECMA_OBJECT_TYPE_MASK : Nat := 0x07

/-- Ecma object is built-in or lexical environment. -/
def ECMA_OBJECT_FLAG_BUILT_IN_OR_LEXICAL_ENV : Nat := 0x08

/-- This object is visited by the garbage collector. -/
def ECMA_OBJECT_FLAG_GC_VISITED : Nat := 0x10

/-- Extensible object. -/
def ECMA_OBJECT_FLAG_EXTENSIBLE : Nat := 0x20

/-- Value for increasing or decreasing the object reference counter: `(1u << 6)`. -/
def ECMA_OBJECT_REF_ONE : Nat := 1 <<< 6

/-- Maximum value of the object reference counter (1023): `(0x3ffu << 6)`. -/
def ECMA_OBJECT_MAX_REF : Nat := 0x3ff <<< 6

/-- The three flag bits of `ecma_object_t.type_flags_refs`, as listed in its layout
comment. -/
def ecma_object_flags : List Nat :=
  [ECMA_OBJECT_FLAG_BUILT_IN_OR_LEXICAL_ENV, ECMA_OBJECT_FLAG_GC_VISITED,
   ECMA_OBJECT_FLAG_EXTENSIBLE]

/-! ## Number and index limits (header lines 740-751) -/

/-- Maximum number of characters in string representation of ecma-uint32. -/
def ECMA_MAX_CHARS_IN_STRINGIFIED_UINT32 : Nat := 10

/-- Maximum value of valid array index: `((uint32_t) (-1))`. -/
def ECMA_MAX_VALUE_OF_VALID_ARRAY_INDEX : Nat := to_uint32 (-1)

/-- Decimal string representation of an unsigned number: the base-10 digits, most
significant first, without leading zeros, and the single character `0` for zero. -/
def decimal_string (n : Nat) : List Char :=
  if n = 0 then ['0'] else ((Nat.digits 10 n).reverse).map Nat.digitChar

/-! ## String descriptor (header lines 796-829) -/

/-- Mask for getting the container of a string. -/
def ECMA_STRING_CONTAINER_MASK : Nat := 0x7

/-- Value for increasing or decreasing the reference counter: `(1u << 3)`. -/
def ECMA_STRING_REF_ONE : Nat := 1 <<< 3

/-- Maximum value of the reference counter (8191): `(0x1fffu << 3)`. -/
def ECMA_STRING_MAX_REF : Nat := 0x1fff <<< 3

/-- The macro `ECMA_STRING_SET_REF_TO_ONE`:
`((uint16_t) (((refs_and_container) & ECMA_STRING_CONTAINER_MASK) | ECMA_STRING_REF_ONE))`. -/
def ECMA_STRING_SET_REF_TO_ONE (refs_and_container : Nat) : Nat :=
  ((refs_and_container &&& ECMA_STRING_CONTAINER_MASK) ||| ECMA_STRING_REF_ONE) % UINT16_SIZE

/-- ECMA string-value descriptor, reduced to the `uint16_t refs_and_container` member. -/
structure ecma_string_t where
  refs_and_container : Nat
  deriving DecidableEq, Repr

/-- Returns with the container type of a string:
`((string_desc_p)->refs_and_container & ECMA_STRING_CONTAINER_MASK)`. -/
def ECMA_STRING_GET_CONTAINER (string_desc_p : ecma_string_t) : Nat :=
  string_desc_p.refs_and_container &&& ECMA_STRING_CONTAINER_MASK


/-! ## Arithmetic reading of the bit operations -/

theorem and_mask_eq_mod (x k : Nat) : x &&& (2 ^ k - 1) = x % 2 ^ k :=
  Nat.and_pow_two_sub_one_eq_mod x k

theorem shr_eq_div (x k : Nat) : x >>> k = x / 2 ^ k :=
  Nat.shiftRight_eq_div_pow x k

theorem is_integer_number_iff (cfg : CONFIG_ECMA_NUMBER_TYPE) (n : Int) :
    ECMA_IS_INTEGER_NUMBER cfg n = true ↔
      ECMA_INTEGER_NUMBER_MIN cfg ≤ n ∧ n ≤ ECMA_INTEGER_NUMBER_MAX cfg := by
  simp [ECMA_IS_INTEGER_NUMBER]

theorem integer_number_range_28 (cfg : CONFIG_ECMA_NUMBER_TYPE) (n : Int)
    (h : ECMA_IS_INTEGER_NUMBER cfg n = true) : -(2 ^ 27) ≤ n ∧ n ≤ 2 ^ 27 - 1 := by
  rw [is_integer_number_iff] at h
  cases cfg <;> simp only [ECMA_INTEGER_NUMBER_MIN, ECMA_INTEGER_NUMBER_MAX] at h <;> omega

theorem to_uint32_shl4 (n : Int) :
    to_uint32 (int_shl n ECMA_DIRECT_SHIFT) = 16 * (n % 2 ^ 28).toNat := by
  unfold to_uint32 int_shl ECMA_DIRECT_SHIFT UINT32_SIZE
  push_cast
  omega

theorem and_of_low_bits_zero (x b k : Nat) (hx : x % 2 ^ k = 0) (hb : b < 2 ^ k) :
    x &&& b = 0 := by
  have hb2 : b &&& (2 ^ k - 1) = b := by
    rw [and_mask_eq_mod]; exact Nat.mod_eq_of_lt hb
  rw [← hb2, Nat.and_comm b, ← Nat.and_assoc, and_mask_eq_mod, hx, Nat.zero_and]

theorem direct_type_integer_value_eq : ECMA_DIRECT_TYPE_INTEGER_VALUE = 0 := by decide

theorem direct_type_mask_eq : ECMA_DIRECT_TYPE_MASK = 11 := by decide

theorem and_eq_mod_and (x b k : Nat) (hb : b < 2 ^ k) : x &&& b = (x % 2 ^ k) &&& b := by
  have hb2 : (2 ^ k - 1) &&& b = b := by
    rw [Nat.and_comm, and_mask_eq_mod]; exact Nat.mod_eq_of_lt hb
  rw [← and_mask_eq_mod, Nat.and_assoc, hb2]

theorem or_mod_two_pow (a b k : Nat) : (a ||| b) % 2 ^ k = a % 2 ^ k ||| b % 2 ^ k := by
  apply Nat.eq_of_testBit_eq
  intro i
  simp only [Nat.testBit_mod_two_pow, Nat.testBit_or]
  cases decide (i < k) <;> simp

theorem and_mod_two_pow (a b k : Nat) : (a &&& b) % 2 ^ k = a % 2 ^ k &&& b % 2 ^ k := by
  apply Nat.eq_of_testBit_eq
  intro i
  simp only [Nat.testBit_mod_two_pow, Nat.testBit_and]
  cases decide (i < k) <;> simp

theorem or_shr (a b k : Nat) : (a ||| b) >>> k = a >>> k ||| b >>> k := by
  apply Nat.eq_of_testBit_eq
  intro i
  simp only [Nat.testBit_shiftRight, Nat.testBit_or]

theorem and_shr (a b k : Nat) : (a &&& b) >>> k = a >>> k &&& b >>> k := by
  apply Nat.eq_of_testBit_eq
  intro i
  simp only [Nat.testBit_shiftRight, Nat.testBit_and]

theorem low4_cases :
    ∀ r, r < 16 →
      (r ||| 4) &&& 4 ≠ 0 ∧ (r &&& 11) &&& 4 = 0 ∧
      (r ||| 4) &&& 3 = r &&& 3 ∧ (r &&& 11) &&& 3 = r &&& 3 ∧
      (r ||| 4) &&& 11 = r &&& 11 ∧ (r &&& 11) &&& 11 = r &&& 11 := by
  decide

theorem string_set_ref_to_one_eq (w : Nat) : ECMA_STRING_SET_REF_TO_ONE w = 8 + w % 8 := by
  unfold ECMA_STRING_SET_REF_TO_ONE
  have h7 : w &&& ECMA_STRING_CONTAINER_MASK = w % 8 := and_mask_eq_mod w 3
  have h8 : ECMA_STRING_REF_ONE = 2 ^ 3 * 1 := by decide
  have hlt : w % 8 < 2 ^ 3 := Nat.mod_lt _ (by decide)
  rw [h7, h8, Nat.or_comm, ← Nat.mul_add_lt_is_or hlt 1]
  unfold UINT16_SIZE
  omega

theorem iterate_uint16_add (u w N : Nat) (h : w + u * N < UINT16_SIZE) :
    (fun x => uint16_add x u)^[N] w = w + u * N := by
  induction N generalizing w with
  | zero => simp
  | succ k ih =>
    have hk : w + u * (k + 1) = w + u + u * k := by ring
    rw [Function.iterate_succ_apply, uint16_add, Nat.mod_eq_of_lt (by rw [hk] at h; omega), ih, hk]
    rw [← hk]; exact h

theorem iterate_uint16_sub (u w N : Nat) (h : w + u * N < UINT16_SIZE) :
    (fun x => uint16_sub x u)^[N] (w + u * N) = w := by
  induction N with
  | zero => simp
  | succ k ih =>
    have hk : w + u * (k + 1) = w + u * k + u := by ring
    have hu : u < UINT16_SIZE := by rw [hk] at h; omega
    have hs : uint16_sub (w + u * (k + 1)) u = w + u * k := by
      unfold uint16_sub
      rw [Nat.mod_eq_of_lt hu, hk]
      unfold UINT16_SIZE at *
      omega
    rw [Function.iterate_succ_apply, hs]
    exact ih (by rw [hk] at h; omega)

theorem property_pack_all :
    ∀ t ∈ ecma_property_types_t, ∀ F ∈ ecma_property_flags_t.sublists,
      (t ||| F.foldl (fun a f => a ||| f) 0) < 2 ^ 8 ∧
      ECMA_PROPERTY_GET_TYPE ⟨t ||| F.foldl (fun a f => a ||| f) 0⟩ = t ∧
      ∀ f ∈ ecma_property_flags_t,
        (((t ||| F.foldl (fun a f => a ||| f) 0) &&& f ≠ 0) ↔ f ∈ F) := by
  decide

theorem and_not_low_mask (bits k p : Nat) (hk : k ≤ bits) (hp : p < 2 ^ bits) :
    p &&& (2 ^ bits - 1 - (2 ^ k - 1)) = p / 2 ^ k * 2 ^ k := by
  have hpos : 0 < 2 ^ k := Nat.two_pow_pos k
  have hle : 2 ^ k ≤ 2 ^ bits := Nat.pow_le_pow_right (by decide) hk
  have hlt : 2 ^ k - 1 < 2 ^ bits := by omega
  have e1 : 2 ^ bits - 1 - (2 ^ k - 1) = 2 ^ bits - ((2 ^ k - 1) + 1) := by omega
  rw [e1, ← shr_eq_div, ← Nat.shiftLeft_eq]
  apply Nat.eq_of_testBit_eq
  intro j
  rw [Nat.testBit_and, Nat.testBit_two_pow_sub_succ hlt, Nat.testBit_two_pow_sub_one,
    Nat.testBit_shiftLeft, Nat.testBit_shiftRight]
  by_cases hj : j < k
  · have : ¬ (j ≥ k) := by omega
    simp [hj, this]
  · have hge : j ≥ k := by omega
    have e2 : k + (j - k) = j := by omega
    rw [e2]
    by_cases hb : j < bits
    · simp [hj, hge, hb]
    · have : p.testBit j = false :=
        Nat.testBit_lt_two_pow (Nat.lt_of_lt_of_le hp (Nat.pow_le_pow_right (by decide) (by omega)))
      simp [this]

theorem square_le_of_abs_le (n M : Int) (h1 : -M ≤ n) (h2 : n ≤ M) : n * n ≤ M * M := by
  nlinarith

theorem square_lt_of_lt (m M : Int) (hM : 0 ≤ M) (h : M < m) : (M + 1) * (M + 1) ≤ m * m := by
  nlinarith

theorem max_array_index_eq : ECMA_MAX_VALUE_OF_VALID_ARRAY_INDEX = 4294967295 := by decide

theorem decimal_string_length_le (n k : Nat) (hk : 0 < k) (h : n < 10 ^ k) :
    (decimal_string n).length ≤ k := by
  unfold decimal_string
  split
  · simpa using hk
  · rename_i hn
    rw [List.length_map, List.length_reverse, Nat.digits_len 10 n (by decide) hn]
    exact Nat.log_lt_of_lt_pow hn h

theorem decimal_string_length_gt (n k : Nat) (h : 10 ^ k ≤ n) :
    k < (decimal_string n).length := by
  unfold decimal_string
  have hpos : 0 < 10 ^ k := Nat.pow_pos (by decide)
  have hn : n ≠ 0 := by omega
  rw [if_neg hn, List.length_map, List.length_reverse]
  by_contra hc
  have h1 : n < 10 ^ (Nat.digits 10 n).length := Nat.lt_base_pow_length_digits (by decide)
  have h2 : 10 ^ (Nat.digits 10 n).length ≤ 10 ^ k :=
    Nat.pow_le_pow_right (by decide) (by omega)
  omega

theorem object_low_bits_all :
    ∀ t ∈ ecma_object_type_t ++ ecma_lexical_environment_type_t,
      ∀ F ∈ ecma_object_flags.sublists,
        (t ||| F.foldl (fun a f => a ||| f) 0) < 2 ^ 6 ∧
        (t ||| F.foldl (fun a f => a ||| f) 0) &&& ECMA_OBJECT_TYPE_MASK = t ∧
        ∀ f ∈ ecma_object_flags,
          (((t ||| F.foldl (fun a f => a ||| f) 0) &&& f ≠ 0) ↔ f ∈ F) := by
  decide

/-! ## Claims -/

/-- C1: in both number configurations, for every integer `n` accepted by
`ECMA_IS_INTEGER_NUMBER`, the word `(n << ECMA_DIRECT_SHIFT) | ECMA_DIRECT_TYPE_INTEGER_VALUE`
is formed without signed 32-bit overflow, carries the direct-integer tag under
`ECMA_DIRECT_TYPE_MASK`, and an arithmetic right shift by `ECMA_DIRECT_SHIFT` gives back `n`. -/
theorem direct_integer_encode_decode (cfg : CONFIG_ECMA_NUMBER_TYPE) (n : Int)
    (h : ECMA_IS_INTEGER_NUMBER cfg n = true) :
    fits_int32 (int_shl n ECMA_DIRECT_SHIFT) = true ∧
    (to_uint32 (int_shl n ECMA_DIRECT_SHIFT) ||| ECMA_DIRECT_TYPE_INTEGER_VALUE) < UINT32_SIZE ∧
    (to_uint32 (int_shl n ECMA_DIRECT_SHIFT) ||| ECMA_DIRECT_TYPE_INTEGER_VALUE)
        &&& ECMA_DIRECT_TYPE_MASK = ECMA_DIRECT_TYPE_INTEGER_VALUE ∧
    int_sar (to_int32 (to_uint32 (int_shl n ECMA_DIRECT_SHIFT)
        ||| ECMA_DIRECT_TYPE_INTEGER_VALUE)) ECMA_DIRECT_SHIFT = n := by
  obtain ⟨h1, h2⟩ := integer_number_range_28 cfg n h
  rw [direct_type_integer_value_eq, Nat.or_zero, to_uint32_shl4]
  have hm : (n % 2 ^ 28).toNat < 2 ^ 28 := by omega
  refine ⟨?_, ?_, ?_, ?_⟩
  · simp only [fits_int32, int_shl, ECMA_DIRECT_SHIFT, INT32_MIN, INT32_MAX,
      decide_eq_true_eq]
    omega
  · unfold UINT32_SIZE; omega
  · rw [direct_type_mask_eq]
    exact and_of_low_bits_zero _ 11 4 (by omega) (by decide)
  · unfold int_sar to_int32 ECMA_DIRECT_SHIFT UINT32_SIZE
    rw [Int.shiftRight_eq_div_pow]
    split <;> push_cast <;> omega

/-- Witness for C1: the smallest direct integer of the float64 configuration round-trips. -/
theorem direct_integer_encode_decode_witness :
    ECMA_IS_INTEGER_NUMBER CONFIG_ECMA_NUMBER_FLOAT64 (-0x8000000) = true ∧
    fits_int32 (int_shl (-0x8000000) ECMA_DIRECT_SHIFT) = true ∧
    (to_uint32 (int_shl (-0x8000000) ECMA_DIRECT_SHIFT) ||| ECMA_DIRECT_TYPE_INTEGER_VALUE)
        < UINT32_SIZE ∧
    (to_uint32 (int_shl (-0x8000000) ECMA_DIRECT_SHIFT) ||| ECMA_DIRECT_TYPE_INTEGER_VALUE)
        &&& ECMA_DIRECT_TYPE_MASK = ECMA_DIRECT_TYPE_INTEGER_VALUE ∧
    int_sar (to_int32 (to_uint32 (int_shl (-0x8000000) ECMA_DIRECT_SHIFT)
        ||| ECMA_DIRECT_TYPE_INTEGER_VALUE)) ECMA_DIRECT_SHIFT = -0x8000000 :=
  ⟨by decide, direct_integer_encode_decode CONFIG_ECMA_NUMBER_FLOAT64 (-0x8000000) (by decide)⟩

/-- C2: reference-count stepping stays inside the counter field and is reversible. For a
16-bit object word `w` and `N` with `(w >> 6) + N <= 1023`, adding `ECMA_OBJECT_REF_ONE`
`N` times never overflows 16 bits, keeps the type mask, each flag and the six low bits as
a whole, raises `w >> 6` by exactly `N`, and subtracting the unit `N` times gives `w`
back; the same holds for a 16-bit string word `s` with unit `ECMA_STRING_REF_ONE`, the
three container bits and the bound `(s >> 3) + M <= 8191`. -/
theorem refcount_stepping (w N s M : Nat)
    (hw : w < UINT16_SIZE) (hN : (w >>> 6) + N ≤ 1023)
    (hs : s < UINT16_SIZE) (hM : (s >>> 3) + M ≤ 8191) :
    ((∀ k, k < N →
        (fun x => uint16_add x ECMA_OBJECT_REF_ONE)^[k] w + ECMA_OBJECT_REF_ONE < UINT16_SIZE) ∧
      (fun x => uint16_add x ECMA_OBJECT_REF_ONE)^[N] w &&& ECMA_OBJECT_TYPE_MASK
        = w &&& ECMA_OBJECT_TYPE_MASK ∧
      (fun x => uint16_add x ECMA_OBJECT_REF_ONE)^[N] w &&& ECMA_OBJECT_FLAG_BUILT_IN_OR_LEXICAL_ENV
        = w &&& ECMA_OBJECT_FLAG_BUILT_IN_OR_LEXICAL_ENV ∧
      (fun x => uint16_add x ECMA_OBJECT_REF_ONE)^[N] w &&& ECMA_OBJECT_FLAG_GC_VISITED
        = w &&& ECMA_OBJECT_FLAG_GC_VISITED ∧
      (fun x => uint16_add x ECMA_OBJECT_REF_ONE)^[N] w &&& ECMA_OBJECT_FLAG_EXTENSIBLE
        = w &&& ECMA_OBJECT_FLAG_EXTENSIBLE ∧
      (fun x => uint16_add x ECMA_OBJECT_REF_ONE)^[N] w &&& (ECMA_OBJECT_REF_ONE - 1)
        = w &&& (ECMA_OBJECT_REF_ONE - 1) ∧
      (fun x => uint16_add x ECMA_OBJECT_REF_ONE)^[N] w >>> 6 = (w >>> 6) + N ∧
      (fun x => uint16_sub x ECMA_OBJECT_REF_ONE)^[N]
        ((fun x => uint16_add x ECMA_OBJECT_REF_ONE)^[N] w) = w) ∧
    ((∀ k, k < M →
        (fun x => uint16_add x ECMA_STRING_REF_ONE)^[k] s + ECMA_STRING_REF_ONE < UINT16_SIZE) ∧
      (fun x => uint16_add x ECMA_STRING_REF_ONE)^[M] s &&& ECMA_STRING_CONTAINER_MASK
        = s &&& ECMA_STRING_CONTAINER_MASK ∧
      (fun x => uint16_add x ECMA_STRING_REF_ONE)^[M] s >>> 3 = (s >>> 3) + M ∧
      (fun x => uint16_sub x ECMA_STRING_REF_ONE)^[M]
        ((fun x => uint16_add x ECMA_STRING_REF_ONE)^[M] s) = s) := by
  have ho : ECMA_OBJECT_REF_ONE = 64 := by decide
  have hso : ECMA_STRING_REF_ONE = 8 := by decide
  rw [shr_eq_div] at hN hM
  have hwN : w + ECMA_OBJECT_REF_ONE * N < UINT16_SIZE := by
    rw [ho]; unfold UINT16_SIZE; omega
  have hsM : s + ECMA_STRING_REF_ONE * M < UINT16_SIZE := by
    rw [hso]; unfold UINT16_SIZE; omega
  have hmod : (w + 64 * N) % 2 ^ 6 = w % 2 ^ 6 := by omega
  have hand : ∀ b, b < 2 ^ 6 → (w + 64 * N) &&& b = w &&& b := by
    intro b hb
    rw [and_eq_mod_and _ b 6 hb, hmod, ← and_eq_mod_and _ b 6 hb]
  refine ⟨⟨?_, ?_, ?_, ?_, ?_, ?_, ?_, ?_⟩, ?_, ?_, ?_, ?_⟩
  · intro k hk
    rw [iterate_uint16_add _ _ _ (by rw [ho] at hwN ⊢; unfold UINT16_SIZE at *; omega)]
    rw [ho] at hwN ⊢; unfold UINT16_SIZE at *; omega
  · rw [iterate_uint16_add _ _ _ hwN, ho]; exact hand _ (by decide)
  · rw [iterate_uint16_add _ _ _ hwN, ho]; exact hand _ (by decide)
  · rw [iterate_uint16_add _ _ _ hwN, ho]; exact hand _ (by decide)
  · rw [iterate_uint16_add _ _ _ hwN, ho]; exact hand _ (by decide)
  · rw [iterate_uint16_add _ _ _ hwN, ho]; exact hand _ (by decide)
  · rw [iterate_uint16_add _ _ _ hwN, ho, shr_eq_div, shr_eq_div]; omega
  · rw [iterate_uint16_add _ _ _ hwN]; exact iterate_uint16_sub _ _ _ hwN
  · intro k hk
    rw [iterate_uint16_add _ _ _ (by rw [hso] at hsM ⊢; unfold UINT16_SIZE at *; omega)]
    rw [hso] at hsM ⊢; unfold UINT16_SIZE at *; omega
  · rw [iterate_uint16_add _ _ _ hsM, hso]
    have h7 : ECMA_STRING_CONTAINER_MASK = 2 ^ 3 - 1 := by decide
    rw [h7, and_mask_eq_mod, and_mask_eq_mod]; omega
  · rw [iterate_uint16_add _ _ _ hsM, hso, shr_eq_div, shr_eq_div]; omega
  · rw [iterate_uint16_add _ _ _ hsM]; exact iterate_uint16_sub _ _ _ hsM

/-- Witness for C2: an extensible general object with two references takes 1021 more, and
a heap string with one reference takes 8190 more. -/
theorem refcount_stepping_witness :
    (fun x => uint16_add x ECMA_OBJECT_REF_ONE)^[1021] 0xA0 >>> 6 = (0xA0 >>> 6) + 1021 ∧
    (fun x => uint16_sub x ECMA_STRING_REF_ONE)^[8190]
      ((fun x => uint16_add x ECMA_STRING_REF_ONE)^[8190] 0x9) = 0x9 :=
  ⟨(refcount_stepping 0xA0 1021 0x9 8190 (by decide) (by decide) (by decide)
      (by decide)).1.2.2.2.2.2.2.1,
   (refcount_stepping 0xA0 1021 0x9 8190 (by decide) (by decide) (by decide)
      (by decide)).2.2.2.2⟩

/-- C3: for every property category `t` of `ecma_property_types_t` and every subset `F` of
the four flags of `ecma_property_flags_t`, the packed value `t | (OR of F)` fits in the
8-bit `type_and_flags` byte, `ECMA_PROPERTY_GET_TYPE` of it is `t`, and for each of the
four flags `(byte & flag) != 0` holds exactly when the flag is in `F`. -/
theorem property_type_and_flags_roundtrip (t : Nat) (F : List Nat)
    (ht : t ∈ ecma_property_types_t) (hF : F.Sublist ecma_property_flags_t) :
    (t ||| F.foldl (fun a f => a ||| f) 0) < 2 ^ 8 ∧
    ECMA_PROPERTY_GET_TYPE ⟨t ||| F.foldl (fun a f => a ||| f) 0⟩ = t ∧
    ∀ f ∈ ecma_property_flags_t,
      (((t ||| F.foldl (fun a f => a ||| f) 0) &&& f ≠ 0) ↔ f ∈ F) :=
  property_pack_all t ht F (List.mem_sublists.mpr hF)

/-- Witness for C3: a configurable, writable named-data property. -/
theorem property_type_and_flags_roundtrip_witness :
    ECMA_PROPERTY_GET_TYPE
      ⟨ECMA_PROPERTY_TYPE_NAMEDDATA |||
        [ECMA_PROPERTY_FLAG_CONFIGURABLE, ECMA_PROPERTY_FLAG_WRITABLE].foldl
          (fun a f => a ||| f) 0⟩ = ECMA_PROPERTY_TYPE_NAMEDDATA :=
  (property_type_and_flags_roundtrip ECMA_PROPERTY_TYPE_NAMEDDATA
    [ECMA_PROPERTY_FLAG_CONFIGURABLE, ECMA_PROPERTY_FLAG_WRITABLE]
    (by decide) (by decide)).2.1

/-- C4: the error flag is orthogonal to the rest of a value. For every 32-bit
`ecma_value_t` word `v`, `v | ECMA_VALUE_ERROR_FLAG` satisfies `ECMA_IS_VALUE_ERROR` and
`v & ~ECMA_VALUE_ERROR_FLAG` does not; both keep the type bits, the direct sub-tag and the
payload `v >> ECMA_VALUE_SHIFT` of `v`; the type mask, the error flag and the bits at or
above `ECMA_VALUE_SHIFT` are pairwise disjoint and together cover all 32 bits. -/
theorem error_flag_orthogonal (v : Nat) (hv : v < UINT32_SIZE) :
    ECMA_IS_VALUE_ERROR (v ||| ECMA_VALUE_ERROR_FLAG) = true ∧
    ECMA_IS_VALUE_ERROR (v &&& uint32_not ECMA_VALUE_ERROR_FLAG) = false ∧
    (v ||| ECMA_VALUE_ERROR_FLAG) &&& ECMA_VALUE_TYPE_MASK = v &&& ECMA_VALUE_TYPE_MASK ∧
    (v &&& uint32_not ECMA_VALUE_ERROR_FLAG) &&& ECMA_VALUE_TYPE_MASK
      = v &&& ECMA_VALUE_TYPE_MASK ∧
    (v ||| ECMA_VALUE_ERROR_FLAG) &&& ECMA_DIRECT_TYPE_MASK = v &&& ECMA_DIRECT_TYPE_MASK ∧
    (v &&& uint32_not ECMA_VALUE_ERROR_FLAG) &&& ECMA_DIRECT_TYPE_MASK
      = v &&& ECMA_DIRECT_TYPE_MASK ∧
    (v ||| ECMA_VALUE_ERROR_FLAG) >>> ECMA_VALUE_SHIFT = v >>> ECMA_VALUE_SHIFT ∧
    (v &&& uint32_not ECMA_VALUE_ERROR_FLAG) >>> ECMA_VALUE_SHIFT = v >>> ECMA_VALUE_SHIFT ∧
    (v ||| ECMA_VALUE_ERROR_FLAG) < UINT32_SIZE ∧
    ECMA_VALUE_TYPE_MASK &&& ECMA_VALUE_ERROR_FLAG = 0 ∧
    ECMA_VALUE_TYPE_MASK &&& ((UINT32_SIZE - 1) >>> ECMA_VALUE_SHIFT <<< ECMA_VALUE_SHIFT) = 0 ∧
    ECMA_VALUE_ERROR_FLAG &&& ((UINT32_SIZE - 1) >>> ECMA_VALUE_SHIFT <<< ECMA_VALUE_SHIFT) = 0 ∧
    ECMA_VALUE_TYPE_MASK ||| ECMA_VALUE_ERROR_FLAG
      ||| ((UINT32_SIZE - 1) >>> ECMA_VALUE_SHIFT <<< ECMA_VALUE_SHIFT) = UINT32_SIZE - 1 := by
  have hnot : uint32_not ECMA_VALUE_ERROR_FLAG = 4294967291 := by decide
  have hflag : ECMA_VALUE_ERROR_FLAG = 4 := rfl
  have htm : ECMA_VALUE_TYPE_MASK = 3 := rfl
  have hsh : ECMA_VALUE_SHIFT = 3 := rfl
  have hr : v % 2 ^ 4 < 16 := Nat.mod_lt _ (by decide)
  obtain ⟨c1, c2, c3, c4, c5, c6⟩ := low4_cases (v % 2 ^ 4) hr
  have e_or : ∀ b, b < 2 ^ 4 → (v ||| 4) &&& b = ((v % 2 ^ 4) ||| 4) &&& b := by
    intro b hb
    rw [and_eq_mod_and _ b 4 hb, or_mod_two_pow]
    rfl
  have e_and : ∀ b, b < 2 ^ 4 → (v &&& 4294967291) &&& b = ((v % 2 ^ 4) &&& 11) &&& b := by
    intro b hb
    rw [and_eq_mod_and _ b 4 hb, and_mod_two_pow]
    rfl
  have e_v : ∀ b, b < 2 ^ 4 → v &&& b = (v % 2 ^ 4) &&& b := fun b hb => and_eq_mod_and v b 4 hb
  rw [hnot, direct_type_mask_eq, hflag, htm, hsh]
  refine ⟨?_, ?_, ?_, ?_, ?_, ?_, ?_, ?_, ?_, by decide, by decide, by decide, by decide⟩
  · simp only [ECMA_IS_VALUE_ERROR, hflag, bne_iff_ne]
    rw [e_or 4 (by decide)]; exact c1
  · simp only [ECMA_IS_VALUE_ERROR, hflag, bne_eq_false_iff_eq]
    rw [e_and 4 (by decide)]; exact c2
  · rw [e_or 3 (by decide), e_v 3 (by decide)]; exact c3
  · rw [e_and 3 (by decide), e_v 3 (by decide)]; exact c4
  · rw [e_or 11 (by decide), e_v 11 (by decide)]; exact c5
  · rw [e_and 11 (by decide), e_v 11 (by decide)]; exact c6
  · rw [or_shr]; simp
  · rw [and_shr]
    have : (4294967291 : Nat) >>> 3 = 2 ^ 29 - 1 := by decide
    rw [this, and_mask_eq_mod, shr_eq_div]
    unfold UINT32_SIZE at hv
    omega
  · exact Nat.or_lt_two_pow hv (by decide)

/-- Witness for C4: the word `0xFFFFFFFB` (every bit but the error flag). -/
theorem error_flag_orthogonal_witness :
    ECMA_IS_VALUE_ERROR (0xFFFFFFFB ||| ECMA_VALUE_ERROR_FLAG) = true ∧
    ECMA_IS_VALUE_ERROR (0xFFFFFFFB &&& uint32_not ECMA_VALUE_ERROR_FLAG) = false :=
  ⟨(error_flag_orthogonal 0xFFFFFFFB (by decide)).1,
   (error_flag_orthogonal 0xFFFFFFFB (by decide)).2.1⟩

/-- C5: for every 16-bit `refs_and_container` word `w`, `ECMA_STRING_SET_REF_TO_ONE (w)` is a
16-bit word with the container of `w` (as read by `ECMA_STRING_GET_CONTAINER`) and a
reference counter field of exactly one unit, whatever the counter of `w` was, and applying
the macro twice is the same as applying it once. -/
theorem string_set_ref_to_one (w : Nat) (hw : w < UINT16_SIZE) :
    ECMA_STRING_SET_REF_TO_ONE w < UINT16_SIZE ∧
    ECMA_STRING_SET_REF_TO_ONE w &&& ECMA_STRING_CONTAINER_MASK
      = w &&& ECMA_STRING_CONTAINER_MASK ∧
    ECMA_STRING_GET_CONTAINER ⟨ECMA_STRING_SET_REF_TO_ONE w⟩ = ECMA_STRING_GET_CONTAINER ⟨w⟩ ∧
    ECMA_STRING_SET_REF_TO_ONE w >>> 3 = 1 ∧
    ECMA_STRING_SET_REF_TO_ONE w
      = (w &&& ECMA_STRING_CONTAINER_MASK) + ECMA_STRING_REF_ONE ∧
    ECMA_STRING_SET_REF_TO_ONE (ECMA_STRING_SET_REF_TO_ONE w) = ECMA_STRING_SET_REF_TO_ONE w := by
  have h7 : ECMA_STRING_CONTAINER_MASK = 2 ^ 3 - 1 := by decide
  have h8 : ECMA_STRING_REF_ONE = 8 := by decide
  simp only [ECMA_STRING_GET_CONTAINER, string_set_ref_to_one_eq, h7, h8, and_mask_eq_mod,
    shr_eq_div]
  unfold UINT16_SIZE at *
  omega

/-- Witness for C5: a saturated UTF-8 heap string word is reset to one reference. -/
theorem string_set_ref_to_one_witness :
    ECMA_STRING_SET_REF_TO_ONE 0xFFFA >>> 3 = 1 ∧
    ECMA_STRING_GET_CONTAINER ⟨ECMA_STRING_SET_REF_TO_ONE 0xFFFA⟩
      = ECMA_STRING_GET_CONTAINER ⟨0xFFFA⟩ :=
  ⟨(string_set_ref_to_one 0xFFFA (by decide)).2.2.2.1,
   (string_set_ref_to_one 0xFFFA (by decide)).2.2.1⟩

/-- C6, as stated, fails: in both number configurations `ECMA_INTEGER_NUMBER_MAX` is a
direct integer whose square does not fit in the signed 32-bit `ecma_integer_value_t`. -/
theorem square_of_max_direct_integer_overflows :
    (ECMA_IS_INTEGER_NUMBER CONFIG_ECMA_NUMBER_FLOAT64
        (ECMA_INTEGER_NUMBER_MAX CONFIG_ECMA_NUMBER_FLOAT64) = true ∧
      fits_int32 (ECMA_INTEGER_NUMBER_MAX CONFIG_ECMA_NUMBER_FLOAT64
        * ECMA_INTEGER_NUMBER_MAX CONFIG_ECMA_NUMBER_FLOAT64) = false) ∧
    (ECMA_IS_INTEGER_NUMBER CONFIG_ECMA_NUMBER_FLOAT32
        (ECMA_INTEGER_NUMBER_MAX CONFIG_ECMA_NUMBER_FLOAT32) = true ∧
      fits_int32 (ECMA_INTEGER_NUMBER_MAX CONFIG_ECMA_NUMBER_FLOAT32
        * ECMA_INTEGER_NUMBER_MAX CONFIG_ECMA_NUMBER_FLOAT32) = false) := by
  decide

/-- C6, amended: in each number configuration, for every integer `n` with
`-ECMA_INTEGER_MULTIPLY_MAX <= n <= ECMA_INTEGER_MULTIPLY_MAX`, `n` is a direct integer and
its square `n * n` fits in the signed 32-bit `ecma_integer_value_t`; the square is again
inside the configured direct-integer range. -/
theorem square_within_multiply_max (cfg : CONFIG_ECMA_NUMBER_TYPE) (n : Int)
    (h1 : -ECMA_INTEGER_MULTIPLY_MAX cfg ≤ n) (h2 : n ≤ ECMA_INTEGER_MULTIPLY_MAX cfg) :
    ECMA_IS_INTEGER_NUMBER cfg n = true ∧
    fits_int32 (n * n) = true ∧
    ECMA_IS_INTEGER_NUMBER cfg (n * n) = true := by
  have hsq := square_le_of_abs_le n _ h1 h2
  have h0 : 0 ≤ n * n := mul_self_nonneg n
  simp only [is_integer_number_iff, fits_int32, INT32_MIN, INT32_MAX, decide_eq_true_eq]
  cases cfg <;>
    simp only [ECMA_INTEGER_MULTIPLY_MAX, ECMA_INTEGER_NUMBER_MIN, ECMA_INTEGER_NUMBER_MAX]
      at h1 h2 hsq ⊢ <;>
    omega

/-- Witness for C6: the bound itself, negated, under the float32 configuration. -/
theorem square_within_multiply_max_witness :
    -ECMA_INTEGER_MULTIPLY_MAX CONFIG_ECMA_NUMBER_FLOAT32 ≤ -0xb50 ∧
    -0xb50 ≤ ECMA_INTEGER_MULTIPLY_MAX CONFIG_ECMA_NUMBER_FLOAT32 ∧
    fits_int32 (-0xb50 * -0xb50) = true :=
  ⟨by decide, by decide,
   (square_within_multiply_max CONFIG_ECMA_NUMBER_FLOAT32 (-0xb50) (by decide) (by decide)).2.1⟩

/-- C7, as stated, fails: in both number configurations the successor of
`ECMA_INTEGER_MULTIPLY_MAX` is a larger integer whose square still fits in the signed
32-bit `ecma_integer_value_t`. -/
theorem square_above_multiply_max_fits_int32 :
    (ECMA_INTEGER_MULTIPLY_MAX CONFIG_ECMA_NUMBER_FLOAT64 < 0x2d42 ∧
      fits_int32 (0x2d42 * 0x2d42) = true) ∧
    (ECMA_INTEGER_MULTIPLY_MAX CONFIG_ECMA_NUMBER_FLOAT32 < 0xb51 ∧
      fits_int32 (0xb51 * 0xb51) = true) := by
  decide

/-- C7, amended: in each number configuration `ECMA_INTEGER_MULTIPLY_MAX` is the maximum
integer whose square is still a direct integer: its square fits in the signed 32-bit
`ecma_integer_value_t` and passes `ECMA_IS_INTEGER_NUMBER`, and the square of every larger
integer exceeds `ECMA_INTEGER_NUMBER_MAX`, so it fails `ECMA_IS_INTEGER_NUMBER`. -/
theorem multiply_max_is_largest_direct_square (cfg : CONFIG_ECMA_NUMBER_TYPE) (m : Int)
    (hm : ECMA_INTEGER_MULTIPLY_MAX cfg < m) :
    fits_int32 (ECMA_INTEGER_MULTIPLY_MAX cfg * ECMA_INTEGER_MULTIPLY_MAX cfg) = true ∧
    ECMA_IS_INTEGER_NUMBER cfg
      (ECMA_INTEGER_MULTIPLY_MAX cfg * ECMA_INTEGER_MULTIPLY_MAX cfg) = true ∧
    ECMA_INTEGER_NUMBER_MAX cfg < m * m ∧
    ECMA_IS_INTEGER_NUMBER cfg (m * m) = false := by
  have hM : 0 ≤ ECMA_INTEGER_MULTIPLY_MAX cfg := by cases cfg <;> decide
  have hsq := square_lt_of_lt m _ hM hm
  have hbig : ECMA_INTEGER_NUMBER_MAX cfg < m * m := by
    cases cfg <;> simp only [ECMA_INTEGER_MULTIPLY_MAX, ECMA_INTEGER_NUMBER_MAX] at hsq ⊢ <;>
      omega
  refine ⟨by cases cfg <;> decide, by cases cfg <;> decide, hbig, ?_⟩
  rw [Bool.eq_false_iff]
  intro hc
  rw [is_integer_number_iff] at hc
  omega

/-- Witness for C7: the successor of the float64 bound. -/
theorem multiply_max_is_largest_direct_square_witness :
    ECMA_INTEGER_MULTIPLY_MAX CONFIG_ECMA_NUMBER_FLOAT64 < 0x2d42 ∧
    ECMA_IS_INTEGER_NUMBER CONFIG_ECMA_NUMBER_FLOAT64 (0x2d42 * 0x2d42) = false :=
  ⟨by decide,
   (multiply_max_is_largest_direct_square CONFIG_ECMA_NUMBER_FLOAT64 0x2d42
      (by decide)).2.2.2⟩

/-- C8: the value slot of a property is recovered from the address of its type byte alone.
For every address `A` that is a multiple of `sizeof (ecma_property_value_t) = 4` and starts
an `ecma_property_pair_t` with a 4-byte header, and for each slot index `i` in `{0, 1}`,
`ECMA_PROPERTY_VALUE_PTR` of the type byte at `A + i` is `A + 4 * (i + 1)`, the address of
`values[i]`; the cell of slot 0 ends where the cell of slot 1 begins. -/
theorem property_value_ptr (bits A i : Nat)
    (hA : A % 4 = 0)
    (hfit : property_pair_value_addr 4 4 A ECMA_PROPERTY_PAIR_ITEM_COUNT ≤ 2 ^ bits)
    (hi : i < ECMA_PROPERTY_PAIR_ITEM_COUNT) :
    ECMA_PROPERTY_VALUE_PTR bits 4 (property_pair_type_addr A i) = A + 4 * (i + 1) ∧
    ECMA_PROPERTY_VALUE_PTR bits 4 (property_pair_type_addr A i)
      = property_pair_value_addr 4 4 A i ∧
    ECMA_PROPERTY_VALUE_PTR bits 4 (property_pair_type_addr A 0) + 4
      ≤ ECMA_PROPERTY_VALUE_PTR bits 4 (property_pair_type_addr A 1) := by
  have hc : ECMA_PROPERTY_PAIR_ITEM_COUNT = 2 := rfl
  rw [hc] at hi
  unfold property_pair_value_addr at hfit
  rw [hc] at hfit
  have hbits : 2 ≤ bits := by
    by_contra hlt
    have hb : bits = 0 ∨ bits = 1 := by omega
    rcases hb with hb | hb <;> rw [hb] at hfit <;> omega
  have key : ∀ j, j < 2 → ECMA_PROPERTY_VALUE_PTR bits 4 (property_pair_type_addr A j)
      = A + 4 * (j + 1) := by
    intro j hj
    unfold ECMA_PROPERTY_VALUE_PTR ECMA_PROPERTY_VALUE_BASE_PTR ECMA_PROPERTY_VALUE_OFFSET
      property_pair_type_addr uintptr_not
    have h3 : (4 - 1 : Nat) = 2 ^ 2 - 1 := by decide
    have hsmall : 2 ^ 2 - 1 < 2 ^ bits := by omega
    rw [h3, Nat.mod_eq_of_lt hsmall, and_mask_eq_mod,
      and_not_low_mask bits 2 (A + j) hbits (by omega)]
    omega
  refine ⟨key i hi, ?_, ?_⟩
  · rw [key i hi]; unfold property_pair_value_addr; omega
  · rw [key 0 (by decide), key 1 (by decide)]

/-- Witness for C8: a pair at address `0x20000010` of a 32-bit address space, second slot. -/
theorem property_value_ptr_witness :
    0x20000010 % 4 = 0 ∧
    ECMA_PROPERTY_VALUE_PTR 32 4 (property_pair_type_addr 0x20000010 1)
      = property_pair_value_addr 4 4 0x20000010 1 :=
  ⟨by decide, (property_value_ptr 32 0x20000010 1 (by decide) (by decide) (by decide)).2.1⟩

/-- C9: for every property header, `ECMA_PROPERTY_IS_PROPERTY_PAIR` holds exactly when the
category in the first type slot, `types[0].type_and_flags & ECMA_PROPERTY_TYPE_MASK`, is
deleted, internal, named-data or named-accessor; it is false for
`ECMA_PROPERTY_TYPE_HASHMAP`; and two headers with the same first-slot category get the
same answer, whatever the flag bits of the first slot, the second slot and the link are. -/
theorem property_is_property_pair (h h2 : ecma_property_header_t)
    (hcat : (h.types ⟨0, by decide⟩).type_and_flags &&& ECMA_PROPERTY_TYPE_MASK
      = (h2.types ⟨0, by decide⟩).type_and_flags &&& ECMA_PROPERTY_TYPE_MASK) :
    (ECMA_PROPERTY_IS_PROPERTY_PAIR h = true ↔
      (h.types ⟨0, by decide⟩).type_and_flags &&& ECMA_PROPERTY_TYPE_MASK ∈
        [ECMA_PROPERTY_TYPE_DELETED, ECMA_PROPERTY_TYPE_INTERNAL,
         ECMA_PROPERTY_TYPE_NAMEDDATA, ECMA_PROPERTY_TYPE_NAMEDACCESSOR]) ∧
    ((h.types ⟨0, by decide⟩).type_and_flags &&& ECMA_PROPERTY_TYPE_MASK
        = ECMA_PROPERTY_TYPE_HASHMAP → ECMA_PROPERTY_IS_PROPERTY_PAIR h = false) ∧
    ECMA_PROPERTY_IS_PROPERTY_PAIR h = ECMA_PROPERTY_IS_PROPERTY_PAIR h2 := by
  have e0 : ECMA_PROPERTY_TYPE_DELETED = 0 := rfl
  have e1 : ECMA_PROPERTY_TYPE_INTERNAL = 1 := rfl
  have e2 : ECMA_PROPERTY_TYPE_NAMEDDATA = 2 := rfl
  have e3 : ECMA_PROPERTY_TYPE_NAMEDACCESSOR = 3 := rfl
  have e4 : ECMA_PROPERTY_TYPE_HASHMAP = 4 := rfl
  have em : ECMA_PROPERTY_TYPE_PROPERTY_PAIR__MAX = 3 := rfl
  refine ⟨?_, ?_, ?_⟩
  · simp only [ECMA_PROPERTY_IS_PROPERTY_PAIR, ECMA_PROPERTY_GET_TYPE, decide_eq_true_eq,
      e0, e1, e2, e3, em, List.mem_cons, List.mem_singleton, List.mem_nil_iff, or_false]
    omega
  · intro hh
    simp only [ECMA_PROPERTY_IS_PROPERTY_PAIR, ECMA_PROPERTY_GET_TYPE, decide_eq_false_iff_not,
      hh, e4, em]
    omega
  · simp only [ECMA_PROPERTY_IS_PROPERTY_PAIR, ECMA_PROPERTY_GET_TYPE, hcat]

/-- Witness for C9: a named-accessor first slot with and without flags, and with different
second slots and links. -/
theorem property_is_property_pair_witness :
    ECMA_PROPERTY_IS_PROPERTY_PAIR ⟨fun i => if i.val = 0 then ⟨0x7B⟩ else ⟨0x04⟩, 0⟩
      = ECMA_PROPERTY_IS_PROPERTY_PAIR ⟨fun i => if i.val = 0 then ⟨0x03⟩ else ⟨0x3A⟩, 7⟩ :=
  (property_is_property_pair ⟨fun i => if i.val = 0 then ⟨0x7B⟩ else ⟨0x04⟩, 0⟩
    ⟨fun i => if i.val = 0 then ⟨0x03⟩ else ⟨0x3A⟩, 7⟩ (by decide)).2.2

/-- C10, as stated, fails under the float32 configuration: `0x800000` and `-0x800000` lie
in the 28-bit two's-complement range but are rejected by `ECMA_IS_INTEGER_NUMBER`. -/
theorem float32_rejects_28_bit_integer :
    (-(2 ^ 27) ≤ (0x800000 : Int) ∧ (0x800000 : Int) ≤ 2 ^ 27 - 1 ∧
      ECMA_IS_INTEGER_NUMBER CONFIG_ECMA_NUMBER_FLOAT32 0x800000 = false) ∧
    (-(2 ^ 27) ≤ (-0x800000 : Int) ∧ (-0x800000 : Int) ≤ 2 ^ 27 - 1 ∧
      ECMA_IS_INTEGER_NUMBER CONFIG_ECMA_NUMBER_FLOAT32 (-0x800000) = false) := by
  decide

/-- C10, amended: under the float64 configuration the integers accepted by
`ECMA_IS_INTEGER_NUMBER` are exactly the 28-bit two's-complement range, from `-2^27` to
`2^27 - 1` inclusive; under the float32 configuration they are exactly the symmetric range
from `-(2^23 - 1)` to `2^23 - 1`; in both configurations every accepted integer is a
28 bit signed integer. -/
theorem direct_integer_range (n : Int) :
    (ECMA_IS_INTEGER_NUMBER CONFIG_ECMA_NUMBER_FLOAT64 n = true ↔
      -(2 ^ 27) ≤ n ∧ n ≤ 2 ^ 27 - 1) ∧
    (ECMA_IS_INTEGER_NUMBER CONFIG_ECMA_NUMBER_FLOAT32 n = true ↔
      -(2 ^ 23 - 1) ≤ n ∧ n ≤ 2 ^ 23 - 1) ∧
    (∀ cfg, ECMA_IS_INTEGER_NUMBER cfg n = true → -(2 ^ 27) ≤ n ∧ n ≤ 2 ^ 27 - 1) := by
  refine ⟨?_, ?_, fun cfg h => integer_number_range_28 cfg n h⟩
  · rw [is_integer_number_iff]
    simp only [ECMA_INTEGER_NUMBER_MIN, ECMA_INTEGER_NUMBER_MAX]
    omega
  · rw [is_integer_number_iff]
    simp only [ECMA_INTEGER_NUMBER_MIN, ECMA_INTEGER_NUMBER_MAX]
    omega

/-- Witness for C10: the extreme values of both configurations are accepted. -/
theorem direct_integer_range_witness :
    ECMA_IS_INTEGER_NUMBER CONFIG_ECMA_NUMBER_FLOAT64 (-0x8000000) = true ∧
    ECMA_IS_INTEGER_NUMBER CONFIG_ECMA_NUMBER_FLOAT32 0x7fffff = true :=
  ⟨(direct_integer_range (-0x8000000)).1.mpr (by decide),
   (direct_integer_range 0x7fffff).2.1.mpr (by decide)⟩

/-- C11: every unsigned 32-bit integer has a decimal string representation of at most
`ECMA_MAX_CHARS_IN_STRINGIFIED_UINT32` (10) characters, both as the digit list
`decimal_string` and as rendered by `Nat.repr`, and the largest unsigned 32-bit integer,
`ECMA_MAX_VALUE_OF_VALID_ARRAY_INDEX`, needs exactly that many, so no smaller constant
would do. -/
theorem stringified_uint32_max_chars (n : Nat) (hn : n < UINT32_SIZE) :
    (decimal_string n).length ≤ ECMA_MAX_CHARS_IN_STRINGIFIED_UINT32 ∧
    (Nat.repr n).length ≤ ECMA_MAX_CHARS_IN_STRINGIFIED_UINT32 ∧
    ECMA_MAX_VALUE_OF_VALID_ARRAY_INDEX < UINT32_SIZE ∧
    (decimal_string ECMA_MAX_VALUE_OF_VALID_ARRAY_INDEX).length
      = ECMA_MAX_CHARS_IN_STRINGIFIED_UINT32 ∧
    (Nat.repr ECMA_MAX_VALUE_OF_VALID_ARRAY_INDEX).length
      = ECMA_MAX_CHARS_IN_STRINGIFIED_UINT32 := by
  have hk : ECMA_MAX_CHARS_IN_STRINGIFIED_UINT32 = 10 := rfl
  have hlt : n < 10 ^ 10 := by unfold UINT32_SIZE at hn; omega
  rw [hk, max_array_index_eq]
  refine ⟨decimal_string_length_le n 10 (by decide) hlt,
    Nat.repr_length n 10 (by decide) hlt, by decide, ?_, by decide⟩
  have hle := decimal_string_length_le 4294967295 10 (by decide) (by decide)
  have hgt := decimal_string_length_gt 4294967295 9 (by decide)
  omega

/-- Witness for C11: one thousand million is a 32-bit value with ten characters at most. -/
theorem stringified_uint32_max_chars_witness :
    1000000000 < UINT32_SIZE ∧
    (decimal_string 1000000000).length ≤ ECMA_MAX_CHARS_IN_STRINGIFIED_UINT32 :=
  ⟨by decide, (stringified_uint32_max_chars 1000000000 (by decide)).1⟩

/-- C12: the fields of the object header word partition its 16 bits.
`ECMA_OBJECT_TYPE_MASK` (3 bits), the flags `ECMA_OBJECT_FLAG_BUILT_IN_OR_LEXICAL_ENV`,
`ECMA_OBJECT_FLAG_GC_VISITED`, `ECMA_OBJECT_FLAG_EXTENSIBLE` and the reference-count field
`ECMA_OBJECT_MAX_REF` (10 bits, 1023 units of `ECMA_OBJECT_REF_ONE`) are pairwise disjoint
with union `0xFFFF`; each of the 8 `ecma_object_type_t` and 3
`ecma_lexical_environment_type_t` values fits in the type mask; and for every type value
`t`, flag subset `F` and count `c <= 1023` the packed word is a 16-bit word from which the
type, each flag and the count are recovered. -/
theorem object_header_partition (t c : Nat) (F : List Nat)
    (ht : t ∈ ecma_object_type_t ∨ t ∈ ecma_lexical_environment_type_t)
    (hF : F.Sublist ecma_object_flags) (hc : c ≤ 1023) :
    List.Pairwise (fun a b => a &&& b = 0)
      [ECMA_OBJECT_TYPE_MASK, ECMA_OBJECT_FLAG_BUILT_IN_OR_LEXICAL_ENV,
       ECMA_OBJECT_FLAG_GC_VISITED, ECMA_OBJECT_FLAG_EXTENSIBLE, ECMA_OBJECT_MAX_REF] ∧
    ECMA_OBJECT_TYPE_MASK ||| ECMA_OBJECT_FLAG_BUILT_IN_OR_LEXICAL_ENV
      ||| ECMA_OBJECT_FLAG_GC_VISITED ||| ECMA_OBJECT_FLAG_EXTENSIBLE
      ||| ECMA_OBJECT_MAX_REF = 0xFFFF ∧
    ECMA_OBJECT_TYPE_MASK = 2 ^ 3 - 1 ∧
    ECMA_OBJECT_MAX_REF = (2 ^ 10 - 1) * ECMA_OBJECT_REF_ONE ∧
    ECMA_OBJECT_MAX_REF = 1023 * ECMA_OBJECT_REF_ONE ∧
    (∀ u ∈ ecma_object_type_t, u &&& ECMA_OBJECT_TYPE_MASK = u) ∧
    (∀ u ∈ ecma_lexical_environment_type_t, u &&& ECMA_OBJECT_TYPE_MASK = u) ∧
    (t ||| F.foldl (fun a f => a ||| f) 0 ||| c * ECMA_OBJECT_REF_ONE) < UINT16_SIZE ∧
    (t ||| F.foldl (fun a f => a ||| f) 0 ||| c * ECMA_OBJECT_REF_ONE)
      &&& ECMA_OBJECT_TYPE_MASK = t ∧
    (∀ f ∈ ecma_object_flags,
      (((t ||| F.foldl (fun a f => a ||| f) 0 ||| c * ECMA_OBJECT_REF_ONE) &&& f ≠ 0)
        ↔ f ∈ F)) ∧
    ((t ||| F.foldl (fun a f => a ||| f) 0 ||| c * ECMA_OBJECT_REF_ONE)
      &&& ECMA_OBJECT_MAX_REF) / ECMA_OBJECT_REF_ONE = c ∧
    (t ||| F.foldl (fun a f => a ||| f) 0 ||| c * ECMA_OBJECT_REF_ONE) >>> 6 = c := by
  have ht2 : t ∈ ecma_object_type_t ++ ecma_lexical_environment_type_t :=
    List.mem_append.mpr ht
  obtain ⟨hlow, htype, hflags⟩ := object_low_bits_all t ht2 F (List.mem_sublists.mpr hF)
  generalize hl : t ||| F.foldl (fun a f => a ||| f) 0 = low at hlow htype hflags ⊢
  have ho : ECMA_OBJECT_REF_ONE = 2 ^ 6 := by decide
  have hw : low ||| c * ECMA_OBJECT_REF_ONE = 2 ^ 6 * c + low := by
    rw [ho, Nat.or_comm, Nat.mul_comm, Nat.mul_add_lt_is_or hlow]
  have hmod : (2 ^ 6 * c + low) % 2 ^ 6 = low := by omega
  have hand : ∀ b, b < 2 ^ 6 → (2 ^ 6 * c + low) &&& b = low &&& b := by
    intro b hb
    rw [and_eq_mod_and _ b 6 hb, hmod]
  have hmax : ECMA_OBJECT_MAX_REF = 2 ^ 16 - 1 - (2 ^ 6 - 1) := by decide
  refine ⟨by decide, by decide, by decide, by decide, by decide, by decide, by decide,
    ?_, ?_, ?_, ?_, ?_⟩
  · rw [hw]; unfold UINT16_SIZE; omega
  · rw [hw, hand _ (by decide)]; exact htype
  · intro f hf
    have hfl : f < 2 ^ 6 := by
      revert f; decide
    rw [hw, hand f hfl]; exact hflags f hf
  · rw [hw, hmax, and_not_low_mask 16 6 _ (by decide) (by omega), ho]
    omega
  · rw [hw, shr_eq_div]; omega

/-- Witness for C12: a built-in, extensible array object holding 1023 references. -/
theorem object_header_partition_witness :
    (ECMA_OBJECT_TYPE_ARRAY |||
        [ECMA_OBJECT_FLAG_BUILT_IN_OR_LEXICAL_ENV, ECMA_OBJECT_FLAG_EXTENSIBLE].foldl
          (fun a f => a ||| f) 0 ||| 1023 * ECMA_OBJECT_REF_ONE)
      &&& ECMA_OBJECT_TYPE_MASK = ECMA_OBJECT_TYPE_ARRAY ∧
    (ECMA_OBJECT_TYPE_ARRAY |||
        [ECMA_OBJECT_FLAG_BUILT_IN_OR_LEXICAL_ENV, ECMA_OBJECT_FLAG_EXTENSIBLE].foldl
          (fun a f => a ||| f) 0 ||| 1023 * ECMA_OBJECT_REF_ONE) >>> 6 = 1023 :=
  ⟨(object_header_partition ECMA_OBJECT_TYPE_ARRAY 1023
      [ECMA_OBJECT_FLAG_BUILT_IN_OR_LEXICAL_ENV, ECMA_OBJECT_FLAG_EXTENSIBLE]
      (by decide) (by decide) (by decide)).2.2.2.2.2.2.2.2.1,
   (object_header_partition ECMA_OBJECT_TYPE_ARRAY 1023
      [ECMA_OBJECT_FLAG_BUILT_IN_OR_LEXICAL_ENV, ECMA_OBJECT_FLAG_EXTENSIBLE]
      (by decide) (by decide) (by decide)).2.2.2.2.2.2.2.2.2.2.2⟩

/-- C13: comparing the whole packed word against the cap tests the reference-count field
alone. For every 16-bit object word `w`, `w < ECMA_OBJECT_MAX_REF` holds if and only if
`w >> 6` is below 1023, so any word with the same count field gets the same answer
whatever its six type/flag bits are; for every 16-bit string word `s`,
`s < ECMA_STRING_MAX_REF` holds if and only if `s >> 3` is below 8191, likewise
independent of the three container bits; and whenever the comparison holds, adding one
reference unit does not overflow 16 bits. -/
theorem refcount_cap_comparison (w s : Nat) (hw : w < UINT16_SIZE) (hs : s < UINT16_SIZE) :
    (w < ECMA_OBJECT_MAX_REF ↔ w >>> 6 < 1023) ∧
    (∀ w2, w2 >>> 6 = w >>> 6 → (w2 < ECMA_OBJECT_MAX_REF ↔ w < ECMA_OBJECT_MAX_REF)) ∧
    (w < ECMA_OBJECT_MAX_REF → w + ECMA_OBJECT_REF_ONE < UINT16_SIZE) ∧
    (s < ECMA_STRING_MAX_REF ↔ s >>> 3 < 8191) ∧
    (∀ s2, s2 >>> 3 = s >>> 3 → (s2 < ECMA_STRING_MAX_REF ↔ s < ECMA_STRING_MAX_REF)) ∧
    (s < ECMA_STRING_MAX_REF → s + ECMA_STRING_REF_ONE < UINT16_SIZE) := by
  have ho : ECMA_OBJECT_REF_ONE = 64 := by decide
  have hm : ECMA_OBJECT_MAX_REF = 65472 := by decide
  have hso : ECMA_STRING_REF_ONE = 8 := by decide
  have hsm : ECMA_STRING_MAX_REF = 65528 := by decide
  simp only [ho, hm, hso, hsm, shr_eq_div]
  unfold UINT16_SIZE at *
  refine ⟨by omega, ?_, by omega, by omega, ?_, by omega⟩
  · intro w2 h2; omega
  · intro s2 h2; omega

/-- Witness for C13: an object word with count 1022 and all six low bits set, and a string
word with count 8190 and all three container bits set, may each take one more reference. -/
theorem refcount_cap_comparison_witness :
    (0xFFBF < ECMA_OBJECT_MAX_REF ↔ 0xFFBF >>> 6 < 1023) ∧
    (0xFFF7 < ECMA_STRING_MAX_REF → 0xFFF7 + ECMA_STRING_REF_ONE < UINT16_SIZE) :=
  ⟨(refcount_cap_comparison 0xFFBF 0xFFF7 (by decide) (by decide)).1,
   (refcount_cap_comparison 0xFFBF 0xFFF7 (by decide) (by decide)).2.2.2.2.2⟩

end EcmaGlobals
